import Mathlib

/-
Verification of the runtime overload dispatcher of ne-zod-overload
(src/dist/zod.overload.js).

The development shallowly embeds the dispatch routine installed by the
`Overload` decorator (lines 42-122 of zod.overload.js) together with the
fragment of the zod v3 validation library that the dispatcher exercises:
`z.undefined()`, `z.string()`, `z.number()`, `z.any()`, `z.tuple([...])`
optionally with `.rest(...)`, `z.array(...)`, `z.custom(pred)` and the
binary intersection produced by `.and(...)`.  JavaScript runtime values
are modelled by `JSVal`; a zod `safeParse` either succeeds with data,
fails, or lets an exception thrown inside a custom refinement escape
(zod v3 `safeParse` does not catch exceptions raised by refinement
predicates), modelled by `ParseOutcome.thrown`.
-/

/-- A JavaScript runtime value, as far as the dispatcher observes them:
`undefined`, `null`, strings, (integer) numbers, booleans and arrays. -/
inductive JSVal where
  | vUndefined
  | vNull
  | vStr (s : String)
  | vNum (n : Int)
  | vBool (b : Bool)
  | vArr (xs : List JSVal)

mutual

/-- Structural equality of JavaScript values (reference equality of the
primitives involved here, extended index-wise to arrays). -/
def JSVal.beq : JSVal → JSVal → Bool
  | .vUndefined, .vUndefined => true
  | .vNull, .vNull => true
  | .vStr a, .vStr b => a == b
  | .vNum a, .vNum b => a == b
  | .vBool a, .vBool b => a == b
  | .vArr xs, .vArr ys => JSVal.beqList xs ys
  | _, _ => false

/-- Index-wise equality of two lists of JavaScript values. -/
def JSVal.beqList : List JSVal → List JSVal → Bool
  | [], [] => true
  | x :: xs, y :: ys => JSVal.beq x y && JSVal.beqList xs ys
  | _, _ => false

end

/-- Reading the `length` property of a JavaScript value: throws a
TypeError (`none`) on `undefined` and `null`, yields the length of a
string or array, and yields `undefined` on numbers and booleans. -/
def jsLengthProp : JSVal → Option JSVal
  | .vUndefined => none
  | .vNull => none
  | .vStr s => some (.vNum s.length)
  | .vArr xs => some (.vNum xs.length)
  | .vNum _ => some .vUndefined
  | .vBool _ => some .vUndefined

/-- The non-recursive zod schemas appearing as tuple items, tuple rest
segments and array element schemas in the fragment we embed. -/
inductive BaseSchema where
  | zodUndefined
  | zodString
  | zodNumber
  | zodAny
deriving DecidableEq, Repr

/-- The zod schema fragment used by the dispatcher.  A custom predicate
returns `none` when evaluating it throws (the predicate the dispatcher
builds for NO_PARAMS entries reads `data.length`, which throws on
`undefined`).  `inter` is the intersection built by `.and(...)`. -/
inductive Schema where
  | base (b : BaseSchema)
  | zodTuple (items : List BaseSchema) (rest : Option BaseSchema)
  | zodArray (elem : BaseSchema)
  | custom (p : JSVal → Option Bool)
  | inter (left right : Schema)

/-- The classification tag the dispatcher derives from `_def.typeName`
(zod.overload.js lines 46-62). -/
inductive RowType where
  | noParams
  | tuple
  | array
  | custom
deriving DecidableEq, Repr

/-- The switch on `schema._def.typeName` in phase 1 of the dispatcher:
`ZodUndefined` is the NO_PARAMS marker, `ZodTuple` and `ZodArray` get
their own tags, everything else is `custom`. -/
def classify : Schema → RowType
  | .base .zodUndefined => .noParams
  | .zodTuple _ _ => .tuple
  | .zodArray _ => .array
  | _ => .custom

/-- Outcome of `schema.safeParse(v)`: success with parsed data, failure,
or an exception escaping (zod v3 does not catch exceptions raised by
custom refinement predicates). -/
inductive ParseOutcome where
  | ok (data : JSVal)
  | fail
  | thrown

/-- Outcome of parsing a list of values elementwise. -/
inductive ListOutcome where
  | ok (ds : List JSVal)
  | fail
  | thrown

/-- Parsing with a primitive schema: `z.undefined()` accepts exactly
`undefined`, `z.string()` and `z.number()` accept exactly their type and
return the value, `z.any()` accepts everything. -/
def parseBase : BaseSchema → JSVal → ParseOutcome
  | .zodUndefined, .vUndefined => .ok .vUndefined
  | .zodUndefined, _ => .fail
  | .zodString, .vStr s => .ok (.vStr s)
  | .zodString, _ => .fail
  | .zodNumber, .vNum n => .ok (.vNum n)
  | .zodNumber, _ => .fail
  | .zodAny, v => .ok v

/-- Combining the outcome for one element with the outcome for the rest
of a list: zod parses every element, so an exception from any element
escapes; otherwise any failure makes the whole list fail. -/
def ListOutcome.push : ParseOutcome → ListOutcome → ListOutcome
  | .thrown, _ => .thrown
  | _, .thrown => .thrown
  | .ok d, .ok ds => .ok (d :: ds)
  | _, _ => .fail

/-- Pairwise parsing of values against the fixed item schemas of a
tuple; stops when either list is exhausted (zod only parses the
positions that have an item schema). -/
def parseZipB : List BaseSchema → List JSVal → ListOutcome
  | s :: ss, x :: xs => ListOutcome.push (parseBase s x) (parseZipB ss xs)
  | _, _ => .ok []

/-- Parsing every value of a list against one element schema, as
`z.array(elem)` and the rest segment of `z.tuple(...).rest(...)` do. -/
def parseEachB : BaseSchema → List JSVal → ListOutcome
  | _, [] => .ok []
  | s, x :: xs => ListOutcome.push (parseBase s x) (parseEachB s xs)

/-- Concatenation of two elementwise outcomes (fixed tuple part followed
by the rest part). -/
def ListOutcome.append : ListOutcome → ListOutcome → ListOutcome
  | .thrown, _ => .thrown
  | _, .thrown => .thrown
  | .ok a, .ok b => .ok (a ++ b)
  | _, _ => .fail

/-- Wrapping an elementwise outcome back into a single parse outcome
whose data is the parsed array. -/
def ListOutcome.lift : ListOutcome → ParseOutcome
  | .ok ds => .ok (.vArr ds)
  | .fail => .fail
  | .thrown => .thrown

/-- The `mergeValues` step of a zod intersection.  On the primitive and
array data produced in this fragment, zod merging succeeds exactly when
the two parsed results are structurally equal (leaf merging is `===`,
arrays are merged index-wise after a length check), and the merged data
is that common value. -/
def mergeValues (a b : JSVal) : Option JSVal :=
  if JSVal.beq a b then some a else none

/-- Combining the two sides of `left.and(right)`: zod parses both sides
eagerly (an exception from either escapes, the left one first), requires
both to succeed, and then merges the two parsed results. -/
def interParse : ParseOutcome → ParseOutcome → ParseOutcome
  | .thrown, _ => .thrown
  | _, .thrown => .thrown
  | .ok da, .ok db =>
    match mergeValues da db with
    | some m => .ok m
    | none => .fail
  | _, _ => .fail

/-- The zod `safeParse` of the embedded schema fragment.  Tuples reject
arrays shorter than their item list outright; without a rest segment an
over-long array fails (after the in-range items are still parsed, so an
exception from those still escapes); with a rest segment the extra
elements are parsed against the rest schema.  A custom predicate that
throws makes the whole `safeParse` throw. -/
def safeParse : Schema → JSVal → ParseOutcome
  | .base b, v => parseBase b v
  | .zodTuple items rest, v =>
    match v with
    | .vArr xs =>
      if xs.length < items.length then .fail
      else
        match rest with
        | none =>
          if items.length < xs.length then
            match parseZipB items xs with
            | .thrown => .thrown
            | _ => .fail
          else ListOutcome.lift (parseZipB items xs)
        | some r =>
          ListOutcome.lift
            (ListOutcome.append (parseZipB items xs)
              (parseEachB r (xs.drop items.length)))
    | _ => .fail
  | .zodArray el, v =>
    match v with
    | .vArr xs => ListOutcome.lift (parseEachB el xs)
    | _ => .fail
  | .custom p, v =>
    match p v with
    | none => .thrown
    | some true => .ok v
    | some false => .fail
  | .inter a b, v => interParse (safeParse a v) (safeParse b v)

/-- The predicate `data => data.length === 0` that phase 1 substitutes
for a NO_PARAMS schema (zod.overload.js line 78).  Reading `.length`
throws on `undefined`/`null`; on values without a length the comparison
`undefined === 0` is false. -/
def noParamsPred (data : JSVal) : Option Bool :=
  match jsLengthProp data with
  | none => none
  | some (.vNum n) => some (n == 0)
  | some _ => some false

/-- An overload entry as the decorator receives it: the declared schema
and the optional declared minimum argument count (the handler is
referred to by the position of the entry). -/
structure Entry where
  schema : Schema
  minArgs : Option Int

/-- Normalisation `isNaN(minArgs) ? 0 : Number(minArgs)` applied in
phase 1 (line 70): an absent declaration is `undefined`, `isNaN` on it
is true, so it normalises to `0`; a declared number is kept. -/
def normMinArgs : Option Int → Int
  | none => 0
  | some n => n

/-- The effective schema phase 1 validates with (lines 73-86): for a
NO_PARAMS entry the schema is swapped for the length predicate; every
other entry keeps its schema intersected with the argument-count guard
`z.custom(_ => args.length === minArgs)`. -/
def effSchema (args : List JSVal) (e : Entry) : Schema :=
  if classify e.schema = RowType.noParams then
    Schema.custom noParamsPred
  else
    Schema.inter e.schema
      (Schema.custom
        (fun _ => some (decide ((args.length : Int) = normMinArgs e.minArgs))))

/-- The value each classification hands to `safeParse` in phase 2
(lines 90-104): NO_PARAMS rows parse `undefined`, tuple and array rows
parse the whole argument list, custom rows parse only `args?.[0]`
(which is `undefined` for an empty call). -/
def parseInput (args : List JSVal) : RowType → JSVal
  | .noParams => .vUndefined
  | .tuple => .vArr args
  | .array => .vArr args
  | .custom =>
    match args with
    | [] => .vUndefined
    | x :: _ => x

/-- Phases 1 and 2 for a single entry: validate the effective schema
against the classification-appropriate input. -/
def validateRow (args : List JSVal) (e : Entry) : ParseOutcome :=
  safeParse (effSchema args e) (parseInput args (classify e.schema))

/-- The per-call canonical rows: classification tag and validation
outcome for every entry, in declaration order. -/
def rows (entries : List Entry) (args : List JSVal) :
    List (RowType × ParseOutcome) :=
  entries.map (fun e => (classify e.schema, validateRow args e))

/-- Phase 3, `.filter(success)[0]` (lines 105-106): index,
classification and parsed data of the first row whose validation
succeeded. -/
def selectFirst : List (RowType × ParseOutcome) → Option (Nat × RowType × JSVal)
  | [] => none
  | (ty, ParseOutcome.ok d) :: _ => some (0, ty, d)
  | _ :: rest =>
    match selectFirst rest with
    | some (i, ty, d) => some (i + 1, ty, d)
    | none => none

/-- The argument list the handler receives (lines 109-118): nothing for
a NO_PARAMS row, the parsed array spread positionally for tuple and
array rows, the single parsed value for a custom row. -/
def shapeArgs : RowType → JSVal → List JSVal
  | .noParams, _ => []
  | .tuple, .vArr xs => xs
  | .tuple, _ => []
  | .array, .vArr xs => xs
  | .array, _ => []
  | .custom, d => [d]

/-- What one invocation of the decorated method does: the phase-2 map
runs every validation, so an exception from any row aborts the whole
call; otherwise the first successful row has its handler invoked with
the shaped arguments; otherwise the original method runs. -/
inductive CallAction where
  | threw
  | invokeHandler (idx : Nat) (callArgs : List JSVal)
  | invokeOriginal

/-- Whether a validation outcome is an escaped exception. -/
def ParseOutcome.isThrown : ParseOutcome → Bool
  | .thrown => true
  | _ => false

/-- The dispatch decision of one call of the decorated method
(lines 42-121). -/
def dispatch (entries : List Entry) (args : List JSVal) : CallAction :=
  let rs := rows entries args
  if rs.any (fun r => r.2.isThrown) then .threw
  else
    match selectFirst rs with
    | some (i, ty, d) => .invokeHandler i (shapeArgs ty d)
    | none => .invokeOriginal

/-- The full call, including the values flowing to handlers: a matched
handler is `bind`/`apply`-ed to `target`, the object the decorator was
applied to (lines 111-117), while the fallback runs the original method
on the dynamic receiver `thisV` with the original arguments (line 121).
`none` means the call threw during validation. -/
def decoratedCall (entries : List Entry)
    (handlers : Nat → JSVal → List JSVal → JSVal)
    (orig : JSVal → List JSVal → JSVal)
    (target thisV : JSVal) (args : List JSVal) : Option JSVal :=
  match dispatch entries args with
  | .threw => none
  | .invokeHandler i cargs => some (handlers i target cargs)
  | .invokeOriginal => some (orig thisV args)

/-- The JavaScript `Array.prototype.join(sep)`: the elements separated
by `sep`, the empty string for an empty array. -/
def jsJoin (sep : String) : List String → String
  | [] => ""
  | [s] => s
  | s :: rest => s ++ sep ++ jsJoin sep rest

/-- The JavaScript `String.prototype.trim()`: the string with leading
and trailing whitespace removed. -/
def jsTrim (s : String) : String :=
  String.mk
    (((s.data.dropWhile Char.isWhitespace).reverse.dropWhile
        Char.isWhitespace).reverse)

/-- The `NoMatchedHandlerError` payload: the entry list surfaced on the
`overloads` field and the assembled message. -/
structure NoMatchedHandlerError (α : Type) where
  overloads : List α
  message : String

/-- The `NoMatchedHandlerError` constructor (lines 154-157):
`super(spaceJoinedStrings.join(' ').trim())` and `this.overloads =
overloads`. -/
def mkNoMatchedHandlerError {α : Type} (overloads : List α)
    (spaceJoinedStrings : List String) : NoMatchedHandlerError α :=
  { overloads := overloads
    message := jsTrim (jsJoin " " spaceJoinedStrings) }

/-- Whether a validation outcome is a recorded failure. -/
def ParseOutcome.isFail : ParseOutcome → Bool
  | .fail => true
  | _ => false

/-- If an intersection parse succeeds, both sides parsed successfully. -/
theorem interParse_ok {x y : ParseOutcome} {d : JSVal}
    (h : interParse x y = ParseOutcome.ok d) :
    (∃ da, x = ParseOutcome.ok da) ∧ ∃ db, y = ParseOutcome.ok db := by
  cases x with
  | thrown => simp [interParse] at h
  | fail => cases y <;> simp [interParse] at h
  | ok da =>
    cases y with
    | thrown => simp [interParse] at h
    | fail => simp [interParse] at h
    | ok db => exact ⟨⟨da, rfl⟩, ⟨db, rfl⟩⟩

/-- If parsing with a custom schema succeeds, its predicate returned
true without throwing. -/
theorem safeParse_custom_ok {p : JSVal → Option Bool} {v d : JSVal}
    (h : safeParse (Schema.custom p) v = ParseOutcome.ok d) :
    p v = some true := by
  simp only [safeParse] at h
  cases hp : p v with
  | none => rw [hp] at h; cases h
  | some b =>
    cases b with
    | false => rw [hp] at h; cases h
    | true => rfl

/-- If a non-NO_PARAMS row validates successfully, then the argument
count of the call equals the normalised minimum argument count of the
entry. -/
theorem validateRow_ok_arg_count {e : Entry} {args : List JSVal} {d : JSVal}
    (hty : classify e.schema ≠ RowType.noParams)
    (hok : validateRow args e = ParseOutcome.ok d) :
    (args.length : Int) = normMinArgs e.minArgs := by
  unfold validateRow effSchema at hok
  rw [if_neg hty] at hok
  simp only [safeParse] at hok
  obtain ⟨_, db, hdb⟩ := interParse_ok hok
  by_cases hP : (args.length : Int) = normMinArgs e.minArgs
  · exact hP
  · simp [hP] at hdb

/-- If a non-NO_PARAMS row validates successfully, its declared schema
itself parses the row input successfully. -/
theorem validateRow_ok_schema {e : Entry} {args : List JSVal} {d : JSVal}
    (hty : classify e.schema ≠ RowType.noParams)
    (hok : validateRow args e = ParseOutcome.ok d) :
    ∃ d0, safeParse e.schema (parseInput args (classify e.schema))
      = ParseOutcome.ok d0 := by
  unfold validateRow effSchema at hok
  rw [if_neg hty] at hok
  simp only [safeParse] at hok
  exact (interParse_ok hok).1

/-- Claim C2 (confirmed): for every entry whose schema is not
classified no-arguments — tuple and array entries included — phase 1
intersects the entry schema with the argument-count guard
`z.custom(_ => args.length === minArgs)` built from the normalised
minimum argument count (`Number(minArgs)`, or 0 when `minArgs` is not a
number), and consequently such an entry can validate successfully only
on calls whose argument count equals that minimum. -/
theorem c2_arg_count_guard (e : Entry) (args : List JSVal)
    (hty : classify e.schema ≠ RowType.noParams) :
    effSchema args e = Schema.inter e.schema
      (Schema.custom
        (fun _ => some (decide ((args.length : Int) = normMinArgs e.minArgs)))) ∧
    ∀ d, validateRow args e = ParseOutcome.ok d →
      (args.length : Int) = normMinArgs e.minArgs := by
  constructor
  · unfold effSchema
    rw [if_neg hty]
  · intro d hok
    exact validateRow_ok_arg_count hty hok

/-- Claim C2 witness: a string-schema entry declaring minimum argument
count 1 validates a one-argument call, whose length indeed equals the
normalised minimum. -/
theorem c2_arg_count_guard_witness :
    effSchema [JSVal.vStr "a"] ⟨Schema.base .zodString, some 1⟩
      = Schema.inter (Schema.base .zodString)
        (Schema.custom
          (fun _ => some (decide
            ((List.length [JSVal.vStr "a"] : Int)
              = normMinArgs (some 1))))) ∧
    ∀ d, validateRow [JSVal.vStr "a"] ⟨Schema.base .zodString, some 1⟩
        = ParseOutcome.ok d →
      (List.length [JSVal.vStr "a"] : Int) = normMinArgs (some 1) :=
  c2_arg_count_guard ⟨Schema.base .zodString, some 1⟩ [JSVal.vStr "a"]
    (by decide)

/-- Claim C1 counterexample: a fixed-tuple entry `z.tuple([z.string()])`
with no declared minimum argument count, called with the single argument
"a".  The declared schema alone validates the whole argument list, yet
the dispatcher records a validation failure for the entry, because the
argument-count guard (1 === 0) is intersected onto tuple entries as
well — contradicting the claim that tuple and array entries carry no
such guard. -/
theorem c1_guard_asymmetry_cex :
    safeParse (Schema.zodTuple [BaseSchema.zodString] none)
      (JSVal.vArr [JSVal.vStr "a"])
      = ParseOutcome.ok (JSVal.vArr [JSVal.vStr "a"]) ∧
    validateRow [JSVal.vStr "a"] ⟨Schema.zodTuple [BaseSchema.zodString] none, none⟩
      = ParseOutcome.fail :=
  ⟨rfl, rfl⟩

/-- Claim C1 as amended: custom/single-value entries are validated
against only the first argument, and tuple and array entries against
the entire argument list, but the argument-count guard — total argument
count equal to the declared minimum-argument-count, defaulting to zero —
is applied to every entry that is not classified no-arguments, tuple
and array entries included, not to single-value entries only. -/
theorem c1_guard_on_tuple_and_array (e : Entry) (args : List JSVal) (d : JSVal)
    (hty : classify e.schema = RowType.tuple ∨ classify e.schema = RowType.array)
    (hok : validateRow args e = ParseOutcome.ok d) :
    (args.length : Int) = normMinArgs e.minArgs ∧
      ∃ d0, safeParse e.schema (JSVal.vArr args) = ParseOutcome.ok d0 := by
  have hne : classify e.schema ≠ RowType.noParams := by
    rcases hty with h | h <;> rw [h] <;> decide
  have hinput : parseInput args (classify e.schema) = JSVal.vArr args := by
    rcases hty with h | h <;> rw [h] <;> rfl
  refine ⟨validateRow_ok_arg_count hne hok, ?_⟩
  have := validateRow_ok_schema hne hok
  rwa [hinput] at this

/-- Claim C1 witness: a tuple entry declaring minimum argument count 1,
called with one matching argument, passes both the guard and the
schema. -/
theorem c1_guard_on_tuple_and_array_witness :
    (List.length [JSVal.vStr "a"] : Int) = normMinArgs (some 1) ∧
      ∃ d0, safeParse (Schema.zodTuple [BaseSchema.zodString] none)
        (JSVal.vArr [JSVal.vStr "a"]) = ParseOutcome.ok d0 :=
  c1_guard_on_tuple_and_array ⟨Schema.zodTuple [BaseSchema.zodString] none, some 1⟩
    [JSVal.vStr "a"] (JSVal.vArr [JSVal.vStr "a"]) (Or.inl rfl) rfl

/-- If index `i` holds the first successful row, the filter-and-take-
first step selects exactly that row. -/
theorem selectFirst_of_first :
    ∀ {rs : List (RowType × ParseOutcome)} {i : Nat} {ty : RowType} {d : JSVal},
    rs.get? i = some (ty, ParseOutcome.ok d) →
    (∀ k, k < i → ∀ ty' d', rs.get? k ≠ some (ty', ParseOutcome.ok d')) →
    selectFirst rs = some (i, ty, d) := by
  intro rs
  induction rs with
  | nil => intro i ty d hi _; simp [List.get?] at hi
  | cons hd rest ih =>
    intro i ty d hi hmin
    obtain ⟨ty0, out0⟩ := hd
    cases i with
    | zero =>
      simp only [List.get?, Option.some.injEq] at hi
      injection hi with h1 h2
      subst h1
      subst h2
      rfl
    | succ j =>
      simp only [List.get?] at hi
      cases out0 with
      | ok d0 =>
        exact absurd rfl (hmin 0 (Nat.succ_pos j) ty0 d0)
      | fail =>
        have hrest := ih hi (fun k hk ty' d' =>
          hmin (k + 1) (Nat.succ_lt_succ hk) ty' d')
        simp [selectFirst, hrest]
      | thrown =>
        have hrest := ih hi (fun k hk ty' d' =>
          hmin (k + 1) (Nat.succ_lt_succ hk) ty' d')
        simp [selectFirst, hrest]

/-- Claim C3 (confirmed): when every validation outcome is ordinary
data (no escaped exception) and row `i` is the first row, in original
declaration order, whose validation succeeded, the dispatcher invokes
exactly the handler of entry `i` with the shaped arguments of that row;
later successful rows are never the invoked one, since the dispatch
action names only this first index. -/
theorem c3_first_match_wins (entries : List Entry) (args : List JSVal)
    (i : Nat) (ty : RowType) (d : JSVal)
    (hnothrow : (rows entries args).any (fun r => r.2.isThrown) = false)
    (hi : (rows entries args).get? i = some (ty, ParseOutcome.ok d))
    (hmin : ∀ k, k < i → ∀ ty' d',
      (rows entries args).get? k ≠ some (ty', ParseOutcome.ok d')) :
    dispatch entries args = CallAction.invokeHandler i (shapeArgs ty d) := by
  unfold dispatch
  simp only [hnothrow, Bool.false_eq_true, if_false,
    selectFirst_of_first hi hmin]

/-- Claim C3 witness: with an any-value entry before a string entry,
both declaring minimum argument count 1, the call with the single
string "x" validates both rows, and the first entry is the one
invoked. -/
theorem c3_first_match_wins_witness :
    dispatch [⟨Schema.base .zodAny, some 1⟩, ⟨Schema.base .zodString, some 1⟩]
      [JSVal.vStr "x"]
      = CallAction.invokeHandler 0 (shapeArgs RowType.custom (JSVal.vStr "x")) :=
  c3_first_match_wins
    [⟨Schema.base .zodAny, some 1⟩, ⟨Schema.base .zodString, some 1⟩]
    [JSVal.vStr "x"] 0 RowType.custom (JSVal.vStr "x")
    rfl rfl (fun k hk => absurd hk (Nat.not_lt_zero k))

/-- Claim C4 counterexample: with the two entries exactly as the claim
lists them — (accepts any single value, H1) then (accepts string, H2),
neither declaring a minimum argument count — the call with the single
argument "x" invokes neither H1 nor H2: both entries fail the
argument-count guard (1 === 0) and the call falls through to the
original method. -/
theorem c4_order_determinism_cex :
    dispatch [⟨Schema.base .zodAny, none⟩, ⟨Schema.base .zodString, none⟩]
      [JSVal.vStr "x"] = CallAction.invokeOriginal :=
  rfl

/-- Claim C4 as amended: with entries [(accepts any single value, H1),
(accepts string, H2)] in that order, each declaring minimum argument
count 1, the call with the single argument "x" invokes H1 (entry 0),
not H2. -/
theorem c4_order_determinism :
    dispatch [⟨Schema.base .zodAny, some 1⟩, ⟨Schema.base .zodString, some 1⟩]
      [JSVal.vStr "x"] = CallAction.invokeHandler 0 [JSVal.vStr "x"] :=
  rfl

/-- Claim C5 counterexample: the fixed-tuple entry
`z.tuple([z.string(), z.number()])` with no declared minimum argument
count does not match the call ("a", 1): the argument-count guard
(2 === 0) fails, so the call falls through instead of invoking the
handler with ("a", 1) spread. -/
theorem c5_tuple_rest_cex :
    dispatch [⟨Schema.zodTuple [BaseSchema.zodString, BaseSchema.zodNumber] none,
        none⟩]
      [JSVal.vStr "a", JSVal.vNum 1] = CallAction.invokeOriginal :=
  rfl

/-- Claim C5 as amended: the described matches hold only when the entry
declares a minimum argument count equal to the argument count of the
call.  The tuple [string, number] entry with minimum 2 matches ("a", 1)
with the handler invoked on ("a", 1) spread, and still falls through on
("a", 1, 2); the variadic entry (string followed by any number of
numbers) with minimum 4 matches ("r", 1, 2, 3) with all four values
spread, and with minimum 1 matches ("r") alone with zero trailing
numbers — but one and the same variadic entry cannot match both calls,
as a variadic entry declaring minimum 4 falls through on ("r"). -/
theorem c5_tuple_rest_dispatch :
    dispatch [⟨Schema.zodTuple [BaseSchema.zodString, BaseSchema.zodNumber] none,
        some 2⟩]
      [JSVal.vStr "a", JSVal.vNum 1]
      = CallAction.invokeHandler 0 [JSVal.vStr "a", JSVal.vNum 1] ∧
    dispatch [⟨Schema.zodTuple [BaseSchema.zodString, BaseSchema.zodNumber] none,
        some 2⟩]
      [JSVal.vStr "a", JSVal.vNum 1, JSVal.vNum 2] = CallAction.invokeOriginal ∧
    dispatch [⟨Schema.zodTuple [BaseSchema.zodString] (some BaseSchema.zodNumber),
        some 4⟩]
      [JSVal.vStr "r", JSVal.vNum 1, JSVal.vNum 2, JSVal.vNum 3]
      = CallAction.invokeHandler 0
          [JSVal.vStr "r", JSVal.vNum 1, JSVal.vNum 2, JSVal.vNum 3] ∧
    dispatch [⟨Schema.zodTuple [BaseSchema.zodString] (some BaseSchema.zodNumber),
        some 1⟩]
      [JSVal.vStr "r"] = CallAction.invokeHandler 0 [JSVal.vStr "r"] ∧
    dispatch [⟨Schema.zodTuple [BaseSchema.zodString] (some BaseSchema.zodNumber),
        some 4⟩]
      [JSVal.vStr "r"] = CallAction.invokeOriginal :=
  ⟨rfl, rfl, rfl, rfl, rfl⟩

/-- Claim C6 (code bug): on the example entries
[(NO_PARAMS, H1), (string schema, H2)], the zero-argument call does not
return the value of H1 — it throws.  Phase 1 swaps the NO_PARAMS schema
for `z.custom(data => data.length === 0)`, but phase 2 safeParses
`undefined` with it, so the predicate evaluates `undefined.length` and
raises a TypeError that escapes the whole call. -/
theorem c6_no_params_call_throws :
    dispatch [⟨Schema.base .zodUndefined, none⟩, ⟨Schema.base .zodString, none⟩]
      [] = CallAction.threw ∧
    decoratedCall
      [⟨Schema.base .zodUndefined, none⟩, ⟨Schema.base .zodString, none⟩]
      (fun _ _ _ => JSVal.vStr "none") (fun _ _ => JSVal.vUndefined)
      JSVal.vNull JSVal.vNull [] = none :=
  ⟨rfl, rfl⟩

/-- Claim C7 (code bug): validating a NO_PARAMS entry throws instead of
producing a success/failure outcome, on every call.  The substituted
predicate `data => data.length === 0` receives the `undefined` that
phase 2 feeds it and `undefined.length` raises a TypeError. -/
theorem c7_validation_throws :
    validateRow [] ⟨Schema.base .zodUndefined, none⟩ = ParseOutcome.thrown ∧
    noParamsPred JSVal.vUndefined = none :=
  ⟨rfl, rfl⟩

/-- If every row records a plain failure, the filter-and-take-first
step selects nothing. -/
theorem selectFirst_none_of_fail {rs : List (RowType × ParseOutcome)}
    (h : ∀ r ∈ rs, r.2.isFail = true) : selectFirst rs = none := by
  induction rs with
  | nil => rfl
  | cons hd rest ih =>
    obtain ⟨ty0, out0⟩ := hd
    have h0 := h (ty0, out0) (List.mem_cons_self _ _)
    cases out0 with
    | ok d => simp [ParseOutcome.isFail] at h0
    | thrown => simp [ParseOutcome.isFail] at h0
    | fail =>
      have hrest := ih (fun r hr => h r (List.mem_cons_of_mem _ hr))
      simp [selectFirst, hrest]

/-- If every row records a plain failure, no row is an escaped
exception. -/
theorem rows_fail_no_thrown {rs : List (RowType × ParseOutcome)}
    (h : ∀ r ∈ rs, r.2.isFail = true) :
    (rs.any fun r => r.2.isThrown) = false := by
  rw [List.any_eq_false]
  intro r hr
  have := h r hr
  cases h2 : r.2 <;>
    simp [h2, ParseOutcome.isFail, ParseOutcome.isThrown] at this ⊢

/-- Claim C8 (confirmed): on a call where every entry validation
produced a failure outcome, the dispatcher raises no error of its own,
invokes the original un-decorated method body with the original
argument list and the original call context, and returns its value
unchanged. -/
theorem c8_fallback_original (entries : List Entry)
    (handlers : Nat → JSVal → List JSVal → JSVal)
    (orig : JSVal → List JSVal → JSVal)
    (target thisV : JSVal) (args : List JSVal)
    (hfail : ∀ r ∈ rows entries args, r.2.isFail = true) :
    dispatch entries args = CallAction.invokeOriginal ∧
      decoratedCall entries handlers orig target thisV args
        = some (orig thisV args) := by
  have hdisp : dispatch entries args = CallAction.invokeOriginal := by
    unfold dispatch
    simp only [rows_fail_no_thrown hfail, Bool.false_eq_true, if_false,
      selectFirst_none_of_fail hfail]
  refine ⟨hdisp, ?_⟩
  unfold decoratedCall
  rw [hdisp]

/-- Claim C8 witness: a lone string-schema entry fails on a number
argument, so the call falls back to the original method applied to the
dynamic receiver and the original arguments. -/
theorem c8_fallback_original_witness :
    dispatch [⟨Schema.base .zodString, none⟩] [JSVal.vNum 5]
      = CallAction.invokeOriginal ∧
    decoratedCall [⟨Schema.base .zodString, none⟩]
      (fun _ _ _ => JSVal.vNull) (fun t as => JSVal.vArr (t :: as))
      (JSVal.vStr "target") (JSVal.vStr "this") [JSVal.vNum 5]
      = some (JSVal.vArr [JSVal.vStr "this", JSVal.vNum 5]) :=
  c8_fallback_original [⟨Schema.base .zodString, none⟩]
    (fun _ _ _ => JSVal.vNull) (fun t as => JSVal.vArr (t :: as))
    (JSVal.vStr "target") (JSVal.vStr "this") [JSVal.vNum 5]
    (by decide)

/-- Claim C9 counterexample: a matched handler that returns its bound
call context.  With the decoration-time target object "proto" distinct
from the call-time receiver "instance", the call returns "proto": the
handler was bound to the decoration target, not to the receiving
object of the call. -/
theorem c9_this_binding_cex :
    decoratedCall [⟨Schema.base .zodAny, some 1⟩] (fun _ t _ => t)
      (fun t _ => t) (JSVal.vStr "proto") (JSVal.vStr "instance")
      [JSVal.vNum 7]
      = some (JSVal.vStr "proto") ∧
    decoratedCall [⟨Schema.base .zodAny, some 1⟩] (fun _ t _ => t)
      (fun t _ => t) (JSVal.vStr "proto") (JSVal.vStr "instance")
      [JSVal.vNum 7]
      ≠ some (JSVal.vStr "instance") := by
  refine ⟨rfl, fun h => ?_⟩
  have h2 : JSVal.vStr "proto" = JSVal.vStr "instance" :=
    Option.some.inj
      ((rfl : decoratedCall [⟨Schema.base .zodAny, some 1⟩] (fun _ t _ => t)
        (fun t _ => t) (JSVal.vStr "proto") (JSVal.vStr "instance")
        [JSVal.vNum 7] = some (JSVal.vStr "proto")).symm.trans h)
  rw [JSVal.vStr.injEq] at h2
  exact absurd h2 (by decide)

/-- Claim C9 as amended: for every matched entry, the selected handler
is invoked with the decoration-time target object (the object the
decorator received, i.e. the class prototype) bound as the call
context, regardless of which classification matched; only the fallback
receives the call-time receiver. -/
theorem c9_handler_bound_to_target (entries : List Entry)
    (handlers : Nat → JSVal → List JSVal → JSVal)
    (orig : JSVal → List JSVal → JSVal)
    (target thisV : JSVal) (args : List JSVal) (i : Nat) (cargs : List JSVal)
    (h : dispatch entries args = CallAction.invokeHandler i cargs) :
    decoratedCall entries handlers orig target thisV args
      = some (handlers i target cargs) := by
  unfold decoratedCall
  rw [h]

/-- Claim C9 witness: a concrete matched call in which the handler
receives the decoration target as its context. -/
theorem c9_handler_bound_to_target_witness :
    decoratedCall [⟨Schema.base .zodAny, some 1⟩] (fun _ t _ => t)
      (fun t _ => t) (JSVal.vStr "T") (JSVal.vStr "I") [JSVal.vNum 3]
      = some ((fun _ t _ => t : Nat → JSVal → List JSVal → JSVal)
          0 (JSVal.vStr "T") [JSVal.vNum 3]) :=
  c9_handler_bound_to_target [⟨Schema.base .zodAny, some 1⟩]
    (fun _ t _ => t) (fun t _ => t) (JSVal.vStr "T") (JSVal.vStr "I")
    [JSVal.vNum 3] 0 [JSVal.vNum 3] rfl

/-- Claim C10 (confirmed): constructing NoMatchedHandlerError with an
entry list E and the message fragments "a", "b", "c" yields an error
whose message is exactly "a b c" — the fragments joined with single
spaces and the result trimmed — and whose overloads field equals E. -/
theorem c10_error_message {α : Type} (E : List α) :
    mkNoMatchedHandlerError E ["a", "b", "c"]
      = { overloads := E, message := "a b c" } :=
  rfl
